import Mathlib

/-!
Shallow embedding of the Nachos trap boundary
(`src/code/userprog/exception.cc`): the syscall dispatcher
`ExceptionHandler`, the PC-advance helper `IncreasePC`, and the state they
act on.  Collaborator operations whose code is not part of the unit under
study (user-memory marshaling, the descriptor table, the process table,
`Thread::Finish`/`Thread::Join`, the synchronized console) are modelled
from the specification and marked as such in their doc comments.
-/

set_option autoImplicit false

namespace Nachos

/-- The machine register file: MIPS register number to 32-bit word,
modelled as an unbounded function into `Int` (register values written by
the handler are plain C `int`s). -/
abbrev RegFile := Nat → Int

/-- `machine->ReadRegister(r)`. -/
def ReadRegister (regs : RegFile) (r : Nat) : Int := regs r

/-- `machine->WriteRegister(r, v)`. -/
def WriteRegister (regs : RegFile) (r : Nat) (v : Int) : RegFile :=
  fun i => if i = r then v else regs i

/-- Program-counter register number (`PC_REG` in the MIPS emulation). -/
def PC_REG : Nat := 34

/-- Next-program-counter register number (`NEXT_PC_REG`). -/
def NEXT_PC_REG : Nat := 35

/-- Previous-program-counter register number (`PREV_PC_REG`). -/
def PREV_PC_REG : Nat := 36

/- Modelled from the spec: the nine recognized request codes (§6 of the
spec: Halt, Create, Open, Read, Write, Close, Exit, Join, Exec).  The
numeric values are those of the Nachos `syscall.h` header, which the
source includes but which is not part of the unit under study. -/

def SC_Halt : Int := 0

def SC_Exit : Int := 1

def SC_Exec : Int := 2

def SC_Join : Int := 3

def SC_Create : Int := 4

def SC_Open : Int := 5

def SC_Read : Int := 6

def SC_Write : Int := 7

def SC_Close : Int := 8

/-- Reserved console-input handle (`ConsoleInput` in `syscall.h`). -/
def ConsoleInput : Int := 0

/-- Reserved console-output handle (`ConsoleOutput` in `syscall.h`). -/
def ConsoleOutput : Int := 1

/-- The trap classifications delivered to `ExceptionHandler` (the
`ExceptionType` enumeration of the machine emulation; only
`SYSCALL_EXCEPTION` is handled, everything else falls into the fatal
branch). -/
inductive ExceptionType where
  | noException
  | syscallException
  | pageFaultException
  | readOnlyException
  | busErrorException
  | addressErrorException
  | overflowException
  | illegalInstrException
  deriving DecidableEq, Repr

/-- Reinterpretation of a signed register value as the C `unsigned` used
for the loop index comparison `i < size` in the read/write loops: the
value modulo `2 ^ 32`. -/
def toUnsigned32 (x : Int) : Nat := (x % (2 ^ 32 : Int)).toNat

/-- Reinterpretation of an unsigned 32-bit value back as a signed C `int`,
as happens in `readLength = i` / `writeLength = i`. -/
def toSigned32 (n : Nat) : Int :=
  if n < 2 ^ 31 then (n : Int) else (n : Int) - 2 ^ 32

/-- An open-file object, identified by the name it was opened under. -/
structure OpenFile where
  name : String
  deriving DecidableEq, Repr

/-- Modelled from the spec: User-Memory Marshaling (§4.1),
`ReadStringFromUser` — copy bytes from user memory starting at `addr`,
stopping at the first NUL byte or after `maxLen` bytes. -/
def ReadStringFromUserAux (mem : Int → Char) (addr : Int) : Nat → List Char
  | 0 => []
  | n + 1 =>
    let c := mem addr
    if c = Char.ofNat 0 then [] else c :: ReadStringFromUserAux mem (addr + 1) n

/-- Modelled from the spec: `ReadStringFromUser(addr, buf, maxLen)`
returning the kernel copy of the user string. -/
def ReadStringFromUser (mem : Int → Char) (addr : Int) (maxLen : Nat) : String :=
  String.mk (ReadStringFromUserAux mem addr maxLen)

/-- Modelled from the spec: `WriteBufferToUser(buffer, addr, size)` —
copy the kernel buffer into user memory starting at `addr`. -/
def WriteBufferToUser (buf : List Char) (mem : Int → Char) (addr : Int) :
    Int → Char :=
  fun a =>
    if 0 ≤ a - addr ∧ a - addr < (buf.length : Int) then
      buf.getD (a - addr).toNat (Char.ofNat 0)
    else mem a

/-- Modelled from the spec: `ReadBufferFromUser(addr, buffer, size)` —
the kernel copy of `n` bytes of user memory starting at `addr`. -/
def ReadBufferFromUser (mem : Int → Char) (addr : Int) (n : Nat) : List Char :=
  (List.range n).map fun i : Nat => mem (addr + (i : Int))

/-- The `n` characters delivered by successive blocking
`synchConsole->GetChar()` calls, with `stream` the console input stream
and `pos` the number of characters already consumed. -/
def consoleChars (stream : Nat → Char) (pos n : Nat) : List Char :=
  (List.range n).map fun i => stream (pos + i)

/-- What the `Join` path needs of a thread registered in the process
table: whether its `Exit` has run, and the status that `Exit` recorded. -/
structure ThreadInfo where
  exited : Bool
  exitStatus : Int
  deriving DecidableEq, Repr

/-- Lookup in the process table (`pTable->Get(pid)`); `none` is the NULL
pointer result for an unregistered pid. -/
def lookupThread : List (Int × ThreadInfo) → Int → Option ThreadInfo
  | [], _ => none
  | (k, t) :: rest, pid => if k = pid then some t else lookupThread rest pid

/-- Replace the entry for `pid` in the process table. -/
def setThread (tbl : List (Int × ThreadInfo)) (pid : Int) (t : ThreadInfo) :
    List (Int × ThreadInfo) :=
  tbl.map fun p => if p.1 = pid then (pid, t) else p

/-- Smallest candidate handle `cand + k` (`k < fuel`) not already bound in
`keys`; enough fuel is always supplied for this to find a free handle. -/
def smallestFreeAux (keys : List Int) : Nat → Int → Int
  | 0, cand => cand
  | fuel + 1, cand =>
    if cand ∈ keys then smallestFreeAux keys fuel (cand + 1) else cand

/-- Modelled from the spec: Descriptor Table `Add` (§4.2), reached through
`currentThread->AddFile(file)` — bind the file to the smallest unused
non-reserved handle (the reserved console handles are `0` and `1`) and
return it together with the updated table.  The spec's capacity sentinel
is not modelled, as no concrete capacity is specified; no claim depends
on the allocation policy. -/
def AddFile (tbl : List (Int × OpenFile)) (f : OpenFile) :
    Int × List (Int × OpenFile) :=
  let h := smallestFreeAux (tbl.map Prod.fst) (tbl.length + 1) 2
  (h, (h, f) :: tbl)

/-- Modelled from the spec: Descriptor Table `Remove` (§4.2), reached
through `currentThread->RemoveFile(fid)`. -/
def RemoveFile (tbl : List (Int × OpenFile)) (fid : Int) :
    List (Int × OpenFile) :=
  tbl.filter fun p => p.1 ≠ fid

/-- Observable actions of one trap: console transfers, file-system and
thread-lifecycle operations, diagnostics, and the Resume step
(`IncreasePC`) marker. -/
inductive Event where
  | halt
  | fsCreate (name : String)
  | fsOpen (name : String) (found : Bool)
  | consoleGet (c : Char)
  | consolePut (c : Char)
  | removeFile (fid : Int)
  | removeAllFiles
  | finish (status : Int)
  | joinWait (pid : Int)
  | forkChild (name : String)
  | nullDeref
  | printUnknownSyscall (code : Int)
  | printUnexpectedException (which : ExceptionType) (code : Int)
  | resume
  deriving DecidableEq, Repr

/-- How one trap ends for the calling thread. -/
inductive Outcome where
  /-- The handler returned after the Resume step (PC advanced). -/
  | resumed
  /-- `interrupt->Halt()`: the whole machine stops. -/
  | halted
  /-- `currentThread->Finish(status)`: the calling thread is gone. -/
  | terminated
  /-- `ASSERT(false)`: the whole kernel aborts. -/
  | fatal
  /-- Undefined behavior: a method call through a NULL pointer. -/
  | fault
  /-- `Thread::Join` on a target that has not yet exited: the caller is
  still blocked at the end of this model's horizon. -/
  | blocked
  deriving DecidableEq, Repr

/-- The kernel-visible state one trap reads and writes: the register
file, the file system, the calling thread's descriptor table, the
synchronized console, user memory, and the process table. -/
structure SysState where
  regs : RegFile
  fs : String → Option OpenFile
  fileTable : List (Int × OpenFile)
  consoleIn : Nat → Char
  consoleInPos : Nat
  consoleOut : List Char
  userMem : Int → Char
  pTable : List (Int × ThreadInfo)
  nextPid : Int
  currentPid : Int

/-- Result of one trap: the state afterwards, the observable events in
order, and how the trap ended. -/
structure HandlerResult where
  st : SysState
  events : List Event
  outcome : Outcome

/-- `IncreasePC()` from the source: save the current PC into the
previous-PC slot, move the next PC into the current slot, and set the
next-PC slot four bytes further. -/
def IncreasePC (regs : RegFile) : RegFile :=
  let pc := ReadRegister regs PC_REG
  let regs1 := WriteRegister regs PREV_PC_REG pc
  let pc2 := ReadRegister regs1 NEXT_PC_REG
  let regs2 := WriteRegister regs1 PC_REG pc2
  WriteRegister regs2 NEXT_PC_REG (pc2 + 4)

/-- `case SC_Create`: marshal the name, `fileSystem->Create(name, 0)`,
advance the PC.  No result is written. -/
def handleCreate (st : SysState) : HandlerResult :=
  let name := ReadStringFromUser st.userMem (ReadRegister st.regs 4) 256
  { st := { st with
      fs := fun n => if n = name then some { name := name } else st.fs n,
      regs := IncreasePC st.regs },
    events := [Event.fsCreate name, Event.resume],
    outcome := Outcome.resumed }

/-- `case SC_Read`: only the reserved console-input handle transfers
anything; the loop index is `unsigned`, so the bound is the unsigned
reinterpretation of the `size` register, and the result written to `r2`
is that count reinterpreted as signed. -/
def handleRead (st : SysState) : HandlerResult :=
  let size := ReadRegister st.regs 5
  let id := ReadRegister st.regs 6
  if id = ConsoleInput then
    let n := toUnsigned32 size
    let buf := consoleChars st.consoleIn st.consoleInPos n
    { st := { st with
        userMem := WriteBufferToUser buf st.userMem (ReadRegister st.regs 4),
        consoleInPos := st.consoleInPos + n,
        regs := IncreasePC (WriteRegister st.regs 2 (toSigned32 n)) },
      events := buf.map Event.consoleGet ++ [Event.resume],
      outcome := Outcome.resumed }
  else
    { st := { st with regs := IncreasePC (WriteRegister st.regs 2 0) },
      events := [Event.resume],
      outcome := Outcome.resumed }

/-- `case SC_Write`: only the reserved console-output handle transfers
anything; symmetric to `handleRead`. -/
def handleWrite (st : SysState) : HandlerResult :=
  let size := ReadRegister st.regs 5
  let id := ReadRegister st.regs 6
  if id = ConsoleOutput then
    let n := toUnsigned32 size
    let buf := ReadBufferFromUser st.userMem (ReadRegister st.regs 4) n
    { st := { st with
        consoleOut := st.consoleOut ++ buf,
        regs := IncreasePC (WriteRegister st.regs 2 (toSigned32 n)) },
      events := buf.map Event.consolePut ++ [Event.resume],
      outcome := Outcome.resumed }
  else
    { st := { st with regs := IncreasePC (WriteRegister st.regs 2 0) },
      events := [Event.resume],
      outcome := Outcome.resumed }

/-- `case SC_Open`: marshal the name and try `fileSystem->Open`.  The
local `fid` is computed on success but — exactly as in the source — the
handler never writes any result register: `machine->WriteRegister(2, _)`
does not occur on this path. -/
def handleOpen (st : SysState) : HandlerResult :=
  let name := ReadStringFromUser st.userMem (ReadRegister st.regs 4) 256
  match st.fs name with
  | none =>
      { st := { st with regs := IncreasePC st.regs },
        events := [Event.fsOpen name false, Event.resume],
        outcome := Outcome.resumed }
  | some f =>
      { st := { st with
          fileTable := (AddFile st.fileTable f).2,
          regs := IncreasePC st.regs },
        events := [Event.fsOpen name true, Event.resume],
        outcome := Outcome.resumed }

/-- `case SC_Close`: `currentThread->RemoveFile(fid)`, advance the PC. -/
def handleClose (st : SysState) : HandlerResult :=
  let fid := ReadRegister st.regs 4
  { st := { st with
      fileTable := RemoveFile st.fileTable fid,
      regs := IncreasePC st.regs },
    events := [Event.removeFile fid, Event.resume],
    outcome := Outcome.resumed }

/-- `case SC_Exit`: `RemoveAllFiles()` then `Finish(status)`.
`Thread::Finish` is modelled from the spec (§4.4): it records the status
in the process control block, raises the completion signal and never
returns, so the `IncreasePC()` written after it in the source is dead
code and no Resume step happens. -/
def handleExit (st : SysState) : HandlerResult :=
  let status := ReadRegister st.regs 4
  { st := { st with
      fileTable := [],
      pTable := setThread st.pTable st.currentPid
        { exited := true, exitStatus := status } },
    events := [Event.removeAllFiles, Event.finish status],
    outcome := Outcome.terminated }

/-- `case SC_Join`: `pTable->Get(pid)` followed unconditionally by
`thread->Join()` — there is no NULL check, so an unregistered pid
dereferences NULL.  `Thread::Join` is modelled from the spec (§4.4): it
blocks until the target's completion signal; if the target has already
exited the handler completes now, writing the literal `0` to `r2` as the
source does, otherwise the caller is still blocked. -/
def handleJoin (st : SysState) : HandlerResult :=
  let pid := ReadRegister st.regs 4
  match lookupThread st.pTable pid with
  | none =>
      { st := st, events := [Event.nullDeref], outcome := Outcome.fault }
  | some t =>
      if t.exited then
        { st := { st with regs := IncreasePC (WriteRegister st.regs 2 0) },
          events := [Event.joinWait pid, Event.resume],
          outcome := Outcome.resumed }
      else
        { st := st, events := [Event.joinWait pid],
          outcome := Outcome.blocked }

/-- `case SC_Exec`: marshal the name and try `fileSystem->Open`.  On
failure `sid` stays `-1` and nothing else happens; on success a new
thread is registered (fresh pid, modelled from the spec's Process Table
`Register`, §4.3) and forked.  Either way `sid` is written to `r2` and
the caller's PC advances. -/
def handleExec (st : SysState) : HandlerResult :=
  let name := ReadStringFromUser st.userMem (ReadRegister st.regs 4) 256
  match st.fs name with
  | none =>
      { st := { st with regs := IncreasePC (WriteRegister st.regs 2 (-1)) },
        events := [Event.fsOpen name false, Event.resume],
        outcome := Outcome.resumed }
  | some _ =>
      let sid := st.nextPid
      { st := { st with
          pTable := (sid, { exited := false, exitStatus := 0 }) :: st.pTable,
          nextPid := st.nextPid + 1,
          regs := IncreasePC (WriteRegister st.regs 2 sid) },
        events := [Event.fsOpen name true, Event.forkChild name, Event.resume],
        outcome := Outcome.resumed }

/-- `ExceptionHandler(which)` from the source: read the request code from
`r2`, dispatch recognized syscalls, and fall into the fatal
`printf` + `ASSERT(false)` branches for unknown codes and for traps that
are not syscalls. -/
def ExceptionHandler (which : ExceptionType) (st : SysState) : HandlerResult :=
  let type := ReadRegister st.regs 2
  if which = ExceptionType.syscallException then
    if type = SC_Halt then
      { st := st, events := [Event.halt], outcome := Outcome.halted }
    else if type = SC_Create then handleCreate st
    else if type = SC_Read then handleRead st
    else if type = SC_Write then handleWrite st
    else if type = SC_Open then handleOpen st
    else if type = SC_Close then handleClose st
    else if type = SC_Exit then handleExit st
    else if type = SC_Join then handleJoin st
    else if type = SC_Exec then handleExec st
    else
      { st := st, events := [Event.printUnknownSyscall type],
        outcome := Outcome.fatal }
  else
    { st := st,
      events := [Event.printUnexpectedException which type],
      outcome := Outcome.fatal }

/-- The nine request codes the dispatcher recognizes. -/
def recognizedCodes : List Int :=
  [SC_Halt, SC_Exit, SC_Exec, SC_Join, SC_Create, SC_Open, SC_Read,
   SC_Write, SC_Close]

/-- `true` exactly on console-transfer events. -/
def isTransfer : Event → Bool
  | Event.consoleGet _ => true
  | Event.consolePut _ => true
  | _ => false

/-! ### Helper lemmas -/

theorem writeRegister_same (regs : RegFile) (r : Nat) (v : Int) :
    WriteRegister regs r v r = v := by
  simp [WriteRegister]

theorem writeRegister_other (regs : RegFile) (r i : Nat) (v : Int)
    (h : i ≠ r) : WriteRegister regs r v i = regs i := by
  simp [WriteRegister, h]

theorem increasePC_prev (regs : RegFile) :
    IncreasePC regs PREV_PC_REG = regs PC_REG := by
  simp [IncreasePC, ReadRegister, WriteRegister, PC_REG, NEXT_PC_REG,
    PREV_PC_REG]

theorem increasePC_pc (regs : RegFile) :
    IncreasePC regs PC_REG = regs NEXT_PC_REG := by
  simp [IncreasePC, ReadRegister, WriteRegister, PC_REG, NEXT_PC_REG,
    PREV_PC_REG]

theorem increasePC_next (regs : RegFile) :
    IncreasePC regs NEXT_PC_REG = regs NEXT_PC_REG + 4 := by
  simp [IncreasePC, ReadRegister, WriteRegister, PC_REG, NEXT_PC_REG,
    PREV_PC_REG]

theorem increasePC_other (regs : RegFile) (r : Nat) (h1 : r ≠ PC_REG)
    (h2 : r ≠ NEXT_PC_REG) (h3 : r ≠ PREV_PC_REG) :
    IncreasePC regs r = regs r := by
  simp [IncreasePC, ReadRegister, WriteRegister, h1, h2, h3]

theorem increasePC_two (regs : RegFile) : IncreasePC regs 2 = regs 2 :=
  increasePC_other regs 2 (by decide) (by decide) (by decide)

theorem increasePC_four (regs : RegFile) : IncreasePC regs 4 = regs 4 :=
  increasePC_other regs 4 (by decide) (by decide) (by decide)

theorem dispatch_nonSyscall (which : ExceptionType) (st : SysState)
    (h : which ≠ ExceptionType.syscallException) :
    ExceptionHandler which st =
      { st := st,
        events := [Event.printUnexpectedException which
          (ReadRegister st.regs 2)],
        outcome := Outcome.fatal } := by
  simp [ExceptionHandler, h]

theorem dispatch_halt (st : SysState)
    (h : ReadRegister st.regs 2 = SC_Halt) :
    ExceptionHandler ExceptionType.syscallException st =
      { st := st, events := [Event.halt], outcome := Outcome.halted } := by
  simp [ExceptionHandler, h]

theorem dispatch_create (st : SysState)
    (h : ReadRegister st.regs 2 = SC_Create) :
    ExceptionHandler ExceptionType.syscallException st = handleCreate st := by
  simp [ExceptionHandler, h, SC_Halt, SC_Create]

theorem dispatch_read (st : SysState)
    (h : ReadRegister st.regs 2 = SC_Read) :
    ExceptionHandler ExceptionType.syscallException st = handleRead st := by
  simp [ExceptionHandler, h, SC_Halt, SC_Create, SC_Read]

theorem dispatch_write (st : SysState)
    (h : ReadRegister st.regs 2 = SC_Write) :
    ExceptionHandler ExceptionType.syscallException st = handleWrite st := by
  simp [ExceptionHandler, h, SC_Halt, SC_Create, SC_Read, SC_Write]

theorem dispatch_open (st : SysState)
    (h : ReadRegister st.regs 2 = SC_Open) :
    ExceptionHandler ExceptionType.syscallException st = handleOpen st := by
  simp [ExceptionHandler, h, SC_Halt, SC_Create, SC_Read, SC_Write, SC_Open]

theorem dispatch_close (st : SysState)
    (h : ReadRegister st.regs 2 = SC_Close) :
    ExceptionHandler ExceptionType.syscallException st = handleClose st := by
  simp [ExceptionHandler, h, SC_Halt, SC_Create, SC_Read, SC_Write, SC_Open,
    SC_Close]

theorem dispatch_exit (st : SysState)
    (h : ReadRegister st.regs 2 = SC_Exit) :
    ExceptionHandler ExceptionType.syscallException st = handleExit st := by
  simp [ExceptionHandler, h, SC_Halt, SC_Create, SC_Read, SC_Write, SC_Open,
    SC_Close, SC_Exit]

theorem dispatch_join (st : SysState)
    (h : ReadRegister st.regs 2 = SC_Join) :
    ExceptionHandler ExceptionType.syscallException st = handleJoin st := by
  simp [ExceptionHandler, h, SC_Halt, SC_Create, SC_Read, SC_Write, SC_Open,
    SC_Close, SC_Exit, SC_Join]

theorem dispatch_exec (st : SysState)
    (h : ReadRegister st.regs 2 = SC_Exec) :
    ExceptionHandler ExceptionType.syscallException st = handleExec st := by
  simp [ExceptionHandler, h, SC_Halt, SC_Create, SC_Read, SC_Write, SC_Open,
    SC_Close, SC_Exit, SC_Join, SC_Exec]

theorem dispatch_unknown (st : SysState)
    (h : ReadRegister st.regs 2 ∉ recognizedCodes) :
    ExceptionHandler ExceptionType.syscallException st =
      { st := st,
        events := [Event.printUnknownSyscall (ReadRegister st.regs 2)],
        outcome := Outcome.fatal } := by
  simp only [recognizedCodes, List.mem_cons, List.not_mem_nil, or_false,
    not_or] at h
  obtain ⟨h0, h1, h2, h3, h4, h5, h6, h7, h8⟩ := h
  simp [ExceptionHandler, h0, h1, h2, h3, h4, h5, h6, h7, h8]

theorem toUnsigned32_of_nonneg (x : Int) (h0 : 0 ≤ x) (h1 : x < 2 ^ 32) :
    toUnsigned32 x = x.toNat := by
  unfold toUnsigned32
  omega

theorem toSigned32_toUnsigned32 (x : Int) (h0 : 0 ≤ x) (h1 : x < 2 ^ 31) :
    toSigned32 (toUnsigned32 x) = x := by
  unfold toSigned32 toUnsigned32
  split <;> omega

theorem toUnsigned32_neg_one : toUnsigned32 (-1) = 2 ^ 32 - 1 := by
  unfold toUnsigned32
  decide

theorem consoleChars_length (stream : Nat → Char) (pos n : Nat) :
    (consoleChars stream pos n).length = n := by
  simp [consoleChars]

theorem readBufferFromUser_length (mem : Int → Char) (addr : Int) (n : Nat) :
    (ReadBufferFromUser mem addr n).length = n := by
  unfold ReadBufferFromUser
  rw [List.length_map, List.length_range]

theorem countTransfers_get (buf : List Char) :
    ((buf.map Event.consoleGet ++ [Event.resume]).countP isTransfer) =
      buf.length := by
  simp [List.countP_append, List.countP_map, Function.comp, isTransfer,
    List.countP_eq_length]

theorem countTransfers_put (buf : List Char) :
    ((buf.map Event.consolePut ++ [Event.resume]).countP isTransfer) =
      buf.length := by
  simp [List.countP_append, List.countP_map, Function.comp, isTransfer,
    List.countP_eq_length]

theorem countP_isTransfer_get (buf : List Char) :
    List.countP (isTransfer ∘ Event.consoleGet) buf = buf.length := by
  rw [List.countP_eq_length]
  intro a _
  simp [isTransfer]

theorem countP_isTransfer_put (buf : List Char) :
    List.countP (isTransfer ∘ Event.consolePut) buf = buf.length := by
  rw [List.countP_eq_length]
  intro a _
  simp [isTransfer]

theorem countP_isTransfer_resume :
    List.countP isTransfer [Event.resume] = 0 := rfl

/-! ### Concrete states for the witnesses -/

/-- A concrete kernel state: all registers zero, empty file system, empty
tables, constant console input, NUL-filled user memory. -/
def baseState : SysState where
  regs := fun _ => 0
  fs := fun _ => none
  fileTable := []
  consoleIn := fun _ => 'x'
  consoleInPos := 0
  consoleOut := []
  userMem := fun _ => Char.ofNat 0
  pTable := []
  nextPid := 5
  currentPid := 0

/-- A trap state whose request code is the unclassified value 9999. -/
def state9999 : SysState :=
  { baseState with regs := fun i => if i = 2 then 9999 else 0 }

/-- An Open trap on a file system that has no files. -/
def stateOpenMissing : SysState :=
  { baseState with regs := fun i => if i = 2 then SC_Open else 0 }

/-- An Exec trap on a file system that has no files. -/
def stateExecMissing : SysState :=
  { baseState with regs := fun i => if i = 2 then SC_Exec else 0 }

/-- A Join(7) trap with no entry for pid 7 in the process table. -/
def stateJoinMissing : SysState :=
  { baseState with
    regs := fun i => if i = 2 then SC_Join else if i = 4 then 7 else 0 }

/-- An Exit(42) trap of the process with pid 7. -/
def stateChildExit : SysState :=
  { baseState with
    regs := fun i => if i = 2 then SC_Exit else if i = 4 then 42 else 0,
    currentPid := 7,
    pTable := [(7, { exited := false, exitStatus := 0 })] }

/-- A Join(7) trap taken after the Exit(42) trap of `stateChildExit`. -/
def stateParentJoin : SysState :=
  { baseState with
    regs := fun i => if i = 2 then SC_Join else if i = 4 then 7 else 0,
    pTable :=
      (ExceptionHandler ExceptionType.syscallException stateChildExit).st.pTable }

/-- A Join(3) trap whose target is registered and has exited with 42. -/
def stateJoinExited : SysState :=
  { baseState with
    regs := fun i => if i = 2 then SC_Join else if i = 4 then 3 else 0,
    pTable := [(3, { exited := true, exitStatus := 42 })] }

/-! ### Claim C7 — IncreasePC -/

/-- Claim C7: for every invocation of the PC-advance step `IncreasePC`,
afterwards the previous-PC register holds the old PC, the current-PC
register holds the old next PC, the next-PC register holds the old next
PC plus 4, and no other register changes. -/
theorem increasePC_spec (regs : RegFile) :
    IncreasePC regs PREV_PC_REG = regs PC_REG ∧
    IncreasePC regs PC_REG = regs NEXT_PC_REG ∧
    IncreasePC regs NEXT_PC_REG = regs NEXT_PC_REG + 4 ∧
    ∀ r : Nat, r ≠ PC_REG → r ≠ NEXT_PC_REG → r ≠ PREV_PC_REG →
      IncreasePC regs r = regs r :=
  ⟨increasePC_prev regs, increasePC_pc regs, increasePC_next regs,
   fun r h1 h2 h3 => increasePC_other regs r h1 h2 h3⟩

/-- Claim C7 witness: `IncreasePC` evaluated on the register file that
maps every register number to itself as a value. -/
theorem increasePC_spec_witness :
    IncreasePC (fun i => (i : Int)) PREV_PC_REG = 34 ∧
    IncreasePC (fun i => (i : Int)) 2 = 2 := by
  have h := increasePC_spec (fun i => (i : Int))
  refine ⟨?_, ?_⟩
  · have h1 := h.1
    simpa [PC_REG] using h1
  · have h2 := h.2.2.2 2 (by decide) (by decide) (by decide)
    simpa using h2

/-! ### Claim C4 — unknown codes and non-syscall traps are fatal -/

/-- Claim C4: a trap whose request code is none of the nine recognized
syscall codes, and any trap that is not a syscall exception, makes the
handler print a diagnostic naming the code / trap kind and abort the
kernel: the outcome is fatal and the state — registers included — is
returned unchanged, so there is no recovery, result write, or PC
update. -/
theorem unknown_trap_fatal (which : ExceptionType) (st : SysState) :
    (which = ExceptionType.syscallException →
      ReadRegister st.regs 2 ∉ recognizedCodes →
      ExceptionHandler which st =
        { st := st,
          events := [Event.printUnknownSyscall (ReadRegister st.regs 2)],
          outcome := Outcome.fatal }) ∧
    (which ≠ ExceptionType.syscallException →
      ExceptionHandler which st =
        { st := st,
          events := [Event.printUnexpectedException which
            (ReadRegister st.regs 2)],
          outcome := Outcome.fatal }) := by
  constructor
  · intro hw h
    subst hw
    exact dispatch_unknown st h
  · intro hw
    exact dispatch_nonSyscall which st hw

/-- Claim C4 witness: request code 9999, and a page-fault trap. -/
theorem unknown_trap_fatal_witness :
    ExceptionHandler ExceptionType.syscallException state9999 =
      { st := state9999, events := [Event.printUnknownSyscall 9999],
        outcome := Outcome.fatal } ∧
    ExceptionHandler ExceptionType.pageFaultException baseState =
      { st := baseState,
        events := [Event.printUnexpectedException
          ExceptionType.pageFaultException 0],
        outcome := Outcome.fatal } :=
  ⟨(unknown_trap_fatal ExceptionType.syscallException state9999).1 rfl
      (by decide),
   (unknown_trap_fatal ExceptionType.pageFaultException baseState).2
      (by decide)⟩

/-! ### Claim C9 — Join of an unregistered pid is an unvalidated fault -/

/-- Claim C9: for a Join whose pid is absent from the process table, the
handler does no not-found validation: the NULL lookup result's `Join` is
invoked, so the trap faults (undefined behavior), and nothing is
reported to the caller — the state is returned untouched. -/
theorem join_missing_pid_faults (st : SysState)
    (h2 : ReadRegister st.regs 2 = SC_Join)
    (hp : lookupThread st.pTable (ReadRegister st.regs 4) = none) :
    (ExceptionHandler ExceptionType.syscallException st).outcome =
      Outcome.fault ∧
    (ExceptionHandler ExceptionType.syscallException st).events =
      [Event.nullDeref] ∧
    (ExceptionHandler ExceptionType.syscallException st).st = st := by
  rw [dispatch_join st h2]
  refine ⟨?_, ?_, ?_⟩ <;> simp [handleJoin, hp]

/-- Claim C9 witness: Join(7) on an empty process table. -/
theorem join_missing_pid_faults_witness :
    (ExceptionHandler ExceptionType.syscallException stateJoinMissing).outcome =
      Outcome.fault ∧
    (ExceptionHandler ExceptionType.syscallException stateJoinMissing).events =
      [Event.nullDeref] ∧
    (ExceptionHandler ExceptionType.syscallException stateJoinMissing).st =
      stateJoinMissing :=
  join_missing_pid_faults stateJoinMissing rfl rfl

/-! ### Claim C1 — Open of a missing file (code bug: result never written) -/

/-- Claim C1 (code bug in the source): on Open of a file the file system
does not have, the handler computes the sentinel `fid = -1` but never
executes any `WriteRegister(2, _)`: afterwards `r2` still holds the
request code `SC_Open`, not `-1`, while — as the claim also says — no
descriptor-table entry is created.  The claim's `-1` write-back is what
the source's own calling-convention comment requires and what the code
fails to do. -/
theorem open_missing_result_never_written (st : SysState)
    (h2 : ReadRegister st.regs 2 = SC_Open)
    (hfs : st.fs (ReadStringFromUser st.userMem (ReadRegister st.regs 4) 256) =
      none) :
    (ExceptionHandler ExceptionType.syscallException st).st.regs 2 = SC_Open ∧
    (ExceptionHandler ExceptionType.syscallException st).st.regs 2 ≠ -1 ∧
    (ExceptionHandler ExceptionType.syscallException st).st.fileTable =
      st.fileTable ∧
    (ExceptionHandler ExceptionType.syscallException st).outcome =
      Outcome.resumed := by
  rw [dispatch_open st h2]
  have h2x : st.regs 2 = SC_Open := h2
  refine ⟨?_, ?_, ?_, ?_⟩ <;>
    simp [handleOpen, hfs, increasePC_two, h2x, SC_Open]

/-- Claim C1 witness: Open on the empty file system. -/
theorem open_missing_result_never_written_witness :
    (ExceptionHandler ExceptionType.syscallException stateOpenMissing).st.regs 2 =
      SC_Open ∧
    (ExceptionHandler ExceptionType.syscallException stateOpenMissing).st.regs 2 ≠
      -1 ∧
    (ExceptionHandler ExceptionType.syscallException stateOpenMissing).st.fileTable =
      [] ∧
    (ExceptionHandler ExceptionType.syscallException stateOpenMissing).outcome =
      Outcome.resumed :=
  open_missing_result_never_written stateOpenMissing rfl rfl

/-! ### Claim C5 — Exec of a missing executable has no side effects -/

/-- Claim C5: for every Exec whose pathname names no existing executable,
the result register receives the sentinel invalid pid `-1`, no process
is registered (process table and pid counter unchanged), the descriptor
table is unchanged, no child is forked, and the caller resumes. -/
theorem exec_missing_no_side_effects (st : SysState)
    (h2 : ReadRegister st.regs 2 = SC_Exec)
    (hfs : st.fs (ReadStringFromUser st.userMem (ReadRegister st.regs 4) 256) =
      none) :
    (ExceptionHandler ExceptionType.syscallException st).st.regs 2 = -1 ∧
    (ExceptionHandler ExceptionType.syscallException st).st.pTable =
      st.pTable ∧
    (ExceptionHandler ExceptionType.syscallException st).st.nextPid =
      st.nextPid ∧
    (ExceptionHandler ExceptionType.syscallException st).st.fileTable =
      st.fileTable ∧
    (∀ nm : String, Event.forkChild nm ∉
      (ExceptionHandler ExceptionType.syscallException st).events) ∧
    (ExceptionHandler ExceptionType.syscallException st).outcome =
      Outcome.resumed := by
  rw [dispatch_exec st h2]
  refine ⟨?_, ?_, ?_, ?_, ?_, ?_⟩ <;>
    simp [handleExec, hfs, increasePC_two, writeRegister_same]

/-- Claim C5 witness: Exec on the empty file system. -/
theorem exec_missing_no_side_effects_witness :
    (ExceptionHandler ExceptionType.syscallException stateExecMissing).st.regs 2 =
      -1 ∧
    (ExceptionHandler ExceptionType.syscallException stateExecMissing).st.pTable =
      [] ∧
    Event.forkChild "" ∉
      (ExceptionHandler ExceptionType.syscallException stateExecMissing).events := by
  obtain ⟨a, b, c, d, e, f⟩ :=
    exec_missing_no_side_effects stateExecMissing rfl rfl
  exact ⟨a, b, e ""⟩

/-! ### Claim C8 — Exit: release, record, terminate; no Resume -/

/-- Claim C8: for every Exit(status) trap, the handler first releases all
of the calling process's open file handles (RemoveAll), then records the
status and terminates the calling thread (`Thread::Finish` never
returns, modelled from the spec), and the Resume step never runs: the
events are RemoveAll followed by Finish, the outcome is termination, the
registers are untouched and no resume event occurs. -/
theorem exit_releases_then_terminates (st : SysState)
    (h2 : ReadRegister st.regs 2 = SC_Exit) :
    (ExceptionHandler ExceptionType.syscallException st).events =
      [Event.removeAllFiles, Event.finish (ReadRegister st.regs 4)] ∧
    (ExceptionHandler ExceptionType.syscallException st).st.fileTable = [] ∧
    (ExceptionHandler ExceptionType.syscallException st).outcome =
      Outcome.terminated ∧
    (ExceptionHandler ExceptionType.syscallException st).st.regs = st.regs ∧
    Event.resume ∉ (ExceptionHandler ExceptionType.syscallException st).events := by
  rw [dispatch_exit st h2]
  refine ⟨rfl, rfl, rfl, rfl, ?_⟩
  simp [handleExit]

/-- Claim C8 witness: Exit(42) by the process with pid 7. -/
theorem exit_releases_then_terminates_witness :
    (ExceptionHandler ExceptionType.syscallException stateChildExit).events =
      [Event.removeAllFiles, Event.finish 42] ∧
    (ExceptionHandler ExceptionType.syscallException stateChildExit).st.fileTable =
      [] ∧
    (ExceptionHandler ExceptionType.syscallException stateChildExit).outcome =
      Outcome.terminated ∧
    Event.resume ∉
      (ExceptionHandler ExceptionType.syscallException stateChildExit).events := by
  obtain ⟨a, b, c, d, e⟩ := exit_releases_then_terminates stateChildExit rfl
  exact ⟨a, b, c, e⟩

/-! ### Claim C2 — Join write-back (corrected: the constant 0 is written) -/

/-- Claim C2 counterexample: the child process (pid 7) exits with status
42; the parent's Join(7) then completes, but the value written back to
the result register is 0, not the 42 that was passed to Exit. -/
theorem join_result_is_zero_not_status :
    (ExceptionHandler ExceptionType.syscallException stateChildExit).events =
      [Event.removeAllFiles, Event.finish 42] ∧
    (ExceptionHandler ExceptionType.syscallException stateParentJoin).outcome =
      Outcome.resumed ∧
    (ExceptionHandler ExceptionType.syscallException stateParentJoin).st.regs 2 =
      0 ∧
    (0 : Int) ≠ 42 := by
  refine ⟨rfl, rfl, rfl, by decide⟩

/-- Claim C2 (amended): Join(pid) on a registered process completes only
once that process's Exit has run, and the value written back to the
result register is then the constant 0, regardless of the status passed
to Exit. -/
theorem join_blocks_until_exit_then_writes_zero (st : SysState)
    (t : ThreadInfo)
    (h2 : ReadRegister st.regs 2 = SC_Join)
    (ht : lookupThread st.pTable (ReadRegister st.regs 4) = some t) :
    ((ExceptionHandler ExceptionType.syscallException st).outcome =
        Outcome.resumed ↔ t.exited = true) ∧
    (t.exited = true →
      (ExceptionHandler ExceptionType.syscallException st).st.regs 2 = 0) := by
  rw [dispatch_join st h2]
  by_cases hx : t.exited = true
  · refine ⟨?_, fun _ => ?_⟩
    · simp [handleJoin, ht, hx]
    · simp [handleJoin, ht, hx, increasePC_two, writeRegister_same]
  · have hx0 : t.exited = false := by
      revert hx
      cases t.exited <;> simp
    refine ⟨?_, fun h => absurd h hx⟩
    simp [handleJoin, ht, hx0]

/-- Claim C2 amended-theorem witness: Join(3) on a target registered as
exited with status 42 completes and writes 0. -/
theorem join_blocks_until_exit_then_writes_zero_witness :
    (ExceptionHandler ExceptionType.syscallException stateJoinExited).outcome =
      Outcome.resumed ∧
    (ExceptionHandler ExceptionType.syscallException stateJoinExited).st.regs 2 =
      0 := by
  obtain ⟨hiff, hw⟩ :=
    join_blocks_until_exit_then_writes_zero stateJoinExited
      { exited := true, exitStatus := 42 } rfl rfl
  exact ⟨hiff.mpr rfl, hw rfl⟩

/-! ### Claim C3 — where the result word goes (corrected: register 2) -/

/-- A Read trap with a non-console handle: the first argument register
`r4` holds the user buffer address 100, `r5` the size 3, `r6` the
handle 5. -/
def stateReadOther : SysState :=
  { baseState with
    regs := fun i =>
      if i = 2 then SC_Read else if i = 4 then 100
      else if i = 5 then 3 else if i = 6 then 5 else 0 }

/-- Claim C3 counterexample: on this Read request the result word 0 is
written to register 2 — the register that held the request code — while
the first argument register `r4` still holds its argument 100
afterwards, so the result is not written into the first argument
register's slot. -/
theorem result_not_written_to_first_arg_register :
    (ExceptionHandler ExceptionType.syscallException stateReadOther).st.regs 2 =
      0 ∧
    (ExceptionHandler ExceptionType.syscallException stateReadOther).st.regs 4 =
      100 ∧
    (100 : Int) ≠ 0 :=
  ⟨rfl, rfl, by decide⟩

/-- Claim C3 (amended): the result word of a result-producing syscall is
written back into register 2, the request-code register, and the first
argument register `r4` is left unchanged: Read, Write and Exec always
write a result into `r2`, Join writes `r2` when it completes, and Open
(contrary to the claim's list) never performs any result write-back at
all. -/
theorem results_written_to_code_register (st : SysState) :
    ((ReadRegister st.regs 2 = SC_Read ∨ ReadRegister st.regs 2 = SC_Write ∨
        ReadRegister st.regs 2 = SC_Exec) →
      ∃ v : Int,
        (ExceptionHandler ExceptionType.syscallException st).st.regs =
          IncreasePC (WriteRegister st.regs 2 v) ∧
        (ExceptionHandler ExceptionType.syscallException st).st.regs 4 =
          st.regs 4) ∧
    (∀ t : ThreadInfo, ReadRegister st.regs 2 = SC_Join →
      lookupThread st.pTable (ReadRegister st.regs 4) = some t →
      t.exited = true →
      (ExceptionHandler ExceptionType.syscallException st).st.regs =
        IncreasePC (WriteRegister st.regs 2 0)) ∧
    (ReadRegister st.regs 2 = SC_Open →
      (ExceptionHandler ExceptionType.syscallException st).st.regs =
        IncreasePC st.regs) := by
  refine ⟨?_, ?_, ?_⟩
  · rintro (h | h | h)
    · rw [dispatch_read st h]
      by_cases hc : ReadRegister st.regs 6 = ConsoleInput
      · exact ⟨toSigned32 (toUnsigned32 (ReadRegister st.regs 5)),
          by simp [handleRead, hc],
          by simp [handleRead, hc, increasePC_four, WriteRegister]⟩
      · exact ⟨0, by simp [handleRead, hc],
          by simp [handleRead, hc, increasePC_four, WriteRegister]⟩
    · rw [dispatch_write st h]
      by_cases hc : ReadRegister st.regs 6 = ConsoleOutput
      · exact ⟨toSigned32 (toUnsigned32 (ReadRegister st.regs 5)),
          by simp [handleWrite, hc],
          by simp [handleWrite, hc, increasePC_four, WriteRegister]⟩
      · exact ⟨0, by simp [handleWrite, hc],
          by simp [handleWrite, hc, increasePC_four, WriteRegister]⟩
    · rw [dispatch_exec st h]
      rcases hfs : st.fs (ReadStringFromUser st.userMem
          (ReadRegister st.regs 4) 256) with _ | f
      · exact ⟨-1, by simp [handleExec, hfs],
          by simp [handleExec, hfs, increasePC_four, WriteRegister]⟩
      · exact ⟨st.nextPid, by simp [handleExec, hfs],
          by simp [handleExec, hfs, increasePC_four, WriteRegister]⟩
  · intro t h ht hx
    rw [dispatch_join st h]
    simp [handleJoin, ht, hx]
  · intro h
    rw [dispatch_open st h]
    rcases hfs : st.fs (ReadStringFromUser st.userMem
        (ReadRegister st.regs 4) 256) with _ | f <;>
      simp [handleOpen, hfs]

/-- Claim C3 amended-theorem witness: the Open limb on the empty file
system, and the Join limb on an exited target. -/
theorem results_written_to_code_register_witness :
    (ExceptionHandler ExceptionType.syscallException stateOpenMissing).st.regs =
      IncreasePC stateOpenMissing.regs ∧
    (ExceptionHandler ExceptionType.syscallException stateJoinExited).st.regs =
      IncreasePC (WriteRegister stateJoinExited.regs 2 0) :=
  ⟨(results_written_to_code_register stateOpenMissing).2.2 rfl,
   (results_written_to_code_register stateJoinExited).2.1
     { exited := true, exitStatus := 42 } rfl rfl rfl⟩

/-! ### Claim C6 — console I/O is gated on the two reserved handles -/

/-- Claim C6: a Read whose handle is not the reserved console-input
handle, and a Write whose handle is not the reserved console-output
handle, transfer no bytes and write 0 to the result register; on the
matching console handle with a representable nonnegative size, exactly
`size` characters go through the console and the result register
receives `size`. -/
theorem console_handle_policy (st : SysState) :
    (ReadRegister st.regs 2 = SC_Read →
      ReadRegister st.regs 6 ≠ ConsoleInput →
      (ExceptionHandler ExceptionType.syscallException st).events =
          [Event.resume] ∧
        (ExceptionHandler ExceptionType.syscallException st).st.userMem =
          st.userMem ∧
        (ExceptionHandler ExceptionType.syscallException st).st.consoleInPos =
          st.consoleInPos ∧
        (ExceptionHandler ExceptionType.syscallException st).st.regs 2 = 0) ∧
    (ReadRegister st.regs 2 = SC_Write →
      ReadRegister st.regs 6 ≠ ConsoleOutput →
      (ExceptionHandler ExceptionType.syscallException st).events =
          [Event.resume] ∧
        (ExceptionHandler ExceptionType.syscallException st).st.consoleOut =
          st.consoleOut ∧
        (ExceptionHandler ExceptionType.syscallException st).st.regs 2 = 0) ∧
    (ReadRegister st.regs 2 = SC_Read →
      ReadRegister st.regs 6 = ConsoleInput →
      0 ≤ ReadRegister st.regs 5 → ReadRegister st.regs 5 < 2 ^ 31 →
      (ExceptionHandler ExceptionType.syscallException st).events.countP
          isTransfer = (ReadRegister st.regs 5).toNat ∧
        (ExceptionHandler ExceptionType.syscallException st).st.consoleInPos =
          st.consoleInPos + (ReadRegister st.regs 5).toNat ∧
        (ExceptionHandler ExceptionType.syscallException st).st.regs 2 =
          ReadRegister st.regs 5) ∧
    (ReadRegister st.regs 2 = SC_Write →
      ReadRegister st.regs 6 = ConsoleOutput →
      0 ≤ ReadRegister st.regs 5 → ReadRegister st.regs 5 < 2 ^ 31 →
      (ExceptionHandler ExceptionType.syscallException st).events.countP
          isTransfer = (ReadRegister st.regs 5).toNat ∧
        (ExceptionHandler ExceptionType.syscallException st).st.consoleOut.length =
          st.consoleOut.length + (ReadRegister st.regs 5).toNat ∧
        (ExceptionHandler ExceptionType.syscallException st).st.regs 2 =
          ReadRegister st.regs 5) := by
  refine ⟨?_, ?_, ?_, ?_⟩
  · intro h2 hc
    rw [dispatch_read st h2]
    refine ⟨?_, ?_, ?_, ?_⟩ <;>
      simp [handleRead, hc, increasePC_two, writeRegister_same]
  · intro h2 hc
    rw [dispatch_write st h2]
    refine ⟨?_, ?_, ?_⟩ <;>
      simp [handleWrite, hc, increasePC_two, writeRegister_same]
  · intro h2 hc h0 h1
    rw [dispatch_read st h2]
    have hu : toUnsigned32 (ReadRegister st.regs 5) =
        (ReadRegister st.regs 5).toNat :=
      toUnsigned32_of_nonneg _ h0 (by omega)
    have hs : toSigned32 (toUnsigned32 (ReadRegister st.regs 5)) =
        ReadRegister st.regs 5 :=
      toSigned32_toUnsigned32 _ h0 h1
    refine ⟨?_, ?_, ?_⟩
    · simp [handleRead, hc, countP_isTransfer_get, countP_isTransfer_resume,
        consoleChars_length, hu]
    · simp [handleRead, hc, hu]
    · simp [handleRead, hc, hs, increasePC_two, writeRegister_same]
  · intro h2 hc h0 h1
    rw [dispatch_write st h2]
    have hu : toUnsigned32 (ReadRegister st.regs 5) =
        (ReadRegister st.regs 5).toNat :=
      toUnsigned32_of_nonneg _ h0 (by omega)
    have hs : toSigned32 (toUnsigned32 (ReadRegister st.regs 5)) =
        ReadRegister st.regs 5 :=
      toSigned32_toUnsigned32 _ h0 h1
    refine ⟨?_, ?_, ?_⟩
    · simp [handleWrite, hc, countP_isTransfer_put, countP_isTransfer_resume,
        readBufferFromUser_length, hu]
    · simp [handleWrite, hc, readBufferFromUser_length, hu]
    · simp [handleWrite, hc, hs, increasePC_two, writeRegister_same]

/-- A Read trap of 3 characters from the console-input handle. -/
def stateReadConsole : SysState :=
  { baseState with
    regs := fun i =>
      if i = 2 then SC_Read else if i = 4 then 200
      else if i = 5 then 3 else 0 }

/-- A Write trap of 2 characters to the console-output handle. -/
def stateWriteConsole : SysState :=
  { baseState with
    regs := fun i =>
      if i = 2 then SC_Write else if i = 4 then 200
      else if i = 5 then 2 else if i = 6 then 1 else 0 }

/-- Claim C6 witness: a non-console Read yields 0; a console Read of 3
transfers 3 characters and returns 3; a console Write of 2 transfers 2
characters and returns 2. -/
theorem console_handle_policy_witness :
    (ExceptionHandler ExceptionType.syscallException stateReadOther).events =
      [Event.resume] ∧
    (ExceptionHandler ExceptionType.syscallException stateReadConsole).events.countP
      isTransfer = 3 ∧
    (ExceptionHandler ExceptionType.syscallException stateReadConsole).st.regs 2 =
      3 ∧
    (ExceptionHandler ExceptionType.syscallException stateWriteConsole).events.countP
      isTransfer = 2 ∧
    (ExceptionHandler ExceptionType.syscallException stateWriteConsole).st.regs 2 =
      2 := by
  have hr := (console_handle_policy stateReadOther).1 rfl (by decide)
  have hcr := (console_handle_policy stateReadConsole).2.2.1 rfl rfl
    (by decide) (by decide)
  have hcw := (console_handle_policy stateWriteConsole).2.2.2 rfl rfl
    (by decide) (by decide)
  exact ⟨hr.1, hcr.1, hcr.2.2, hcw.1, hcw.2.2⟩

/-! ### Claim C10 — untrusted size, unsigned loop bound -/

/-- A Read trap from console input with the negative size -1. -/
def stateReadNegative : SysState :=
  { baseState with
    regs := fun i => if i = 2 then SC_Read else if i = 5 then -1 else 0 }

/-- A Write trap to console output with the negative size -1. -/
def stateWriteNegative : SysState :=
  { baseState with
    regs := fun i =>
      if i = 2 then SC_Write else if i = 5 then -1
      else if i = 6 then 1 else 0 }

/-- Claim C10: the kernel-side buffer length for Read and Write is taken
directly from the user-supplied size register with no upper bound or
sign check; for the negative size `-1` the loop's `unsigned` comparison
treats the bound as `2 ^ 32 - 1`, so the console copy loop performs
4294967295 transfers — not bounded by any kernel capacity. -/
theorem negative_size_gives_huge_bound (st : SysState) :
    (ReadRegister st.regs 2 = SC_Read → ReadRegister st.regs 5 = -1 →
      ReadRegister st.regs 6 = ConsoleInput →
      (ExceptionHandler ExceptionType.syscallException st).events.countP
        isTransfer = 2 ^ 32 - 1) ∧
    (ReadRegister st.regs 2 = SC_Write → ReadRegister st.regs 5 = -1 →
      ReadRegister st.regs 6 = ConsoleOutput →
      (ExceptionHandler ExceptionType.syscallException st).events.countP
        isTransfer = 2 ^ 32 - 1) := by
  constructor
  · intro h2 h5 h6
    rw [dispatch_read st h2]
    simp [handleRead, h6, h5, countP_isTransfer_get, countP_isTransfer_resume,
      consoleChars_length, toUnsigned32_neg_one]
  · intro h2 h5 h6
    rw [dispatch_write st h2]
    simp [handleWrite, h6, h5, countP_isTransfer_put, countP_isTransfer_resume,
      readBufferFromUser_length, toUnsigned32_neg_one]

/-- Claim C10 witness: size -1 on the console read and the console
write. -/
theorem negative_size_gives_huge_bound_witness :
    (ExceptionHandler ExceptionType.syscallException stateReadNegative).events.countP
      isTransfer = 4294967295 ∧
    (ExceptionHandler ExceptionType.syscallException stateWriteNegative).events.countP
      isTransfer = 4294967295 := by
  have hr := (negative_size_gives_huge_bound stateReadNegative).1 rfl rfl rfl
  have hw := (negative_size_gives_huge_bound stateWriteNegative).2 rfl rfl rfl
  exact ⟨hr, hw⟩

end Nachos
